import Mathlib

/-!
Shallow embedding of the chat transcript viewer in `frontend/main2.py`.

The mutable Streamlit session state becomes an explicit `AppState` record;
each user-action handler becomes a pure function from the prior state (and
the responses the external collaborator calls returned during the action)
to the next state.  Collaborator calls (`api_get_sessions`,
`api_create_session`, `api_get_messages`, `api_create_message`,
`api_get_citation`, `api_get_docs`) are passed in as oracle functions or
as their returned values; a failure is the sentinel value (`none` for a
single record, `[]` for a sequence), following the collaborator contract.
-/

namespace ChatbotGermano

/-- A chat session record as returned by the backend
(`ChatSession` in the data model). -/
structure Session where
  id : String
  title : String
  created_at : String
  deriving Repr, DecidableEq

/-- A citation record attached to a message. -/
structure Citation where
  id : String
  text : String
  deriving Repr, DecidableEq

/-- A chat message as returned by the backend. -/
structure Message where
  role : String
  content : String
  citations : List Citation
  timestamp : String
  link : Option String
  deriving Repr, DecidableEq

/-- A document record resolved from a citation. -/
structure Document where
  id : String
  title : String
  text : String
  deriving Repr, DecidableEq

/-- Python `dict` as an insertion-ordered association list (keys are unique):
assigning to an existing key replaces its binding in place, a new key is
appended at the end. -/
def dictInsert {α : Type} (d : List (String × α)) (k : String) (v : α) :
    List (String × α) :=
  match d with
  | [] => [(k, v)]
  | p :: rest => if p.1 = k then (k, v) :: rest else p :: dictInsert rest k v

/-- Python `k in d` for the association-list dict. -/
def dictMem {α : Type} (d : List (String × α)) (k : String) : Bool :=
  d.any (fun p => p.1 = k)

/-- Python `d[k]` lookup for the association-list dict. -/
def dictGet {α : Type} (d : List (String × α)) (k : String) : Option α :=
  (d.find? (fun p => p.1 = k)).map Prod.snd

/-- Python truthiness of an optional string (`None` and `""` are falsy),
used by guards such as `if st.session_state.current_chat_id:`. -/
def truthyStr (o : Option String) : Bool :=
  match o with
  | none => false
  | some s => s ≠ ""

/-- The mutable UI state held in `st.session_state` in `main2.py`, plus the
open flag of the citation `Modal` instance (`modal.is_open()`), which the
modal library keeps alongside the session state. -/
structure AppState where
  chat_sessions : List (String × Session)
  current_chat_id : Option String
  messages : List Message
  show_citation_id : Option String
  documents_cache : List (String × List Document)
  modal_open : Bool
  deriving Repr, DecidableEq

/-- `initialize_app` (main2.py lines 125-157): on first run the session list
is fetched (a dict keyed by session id) and every other state
variable starts empty/None; the modal starts closed. -/
def init_app (fetched_sessions : List Session) : AppState :=
  { chat_sessions := fetched_sessions.foldl (fun d s => dictInsert d s.id s) []
    current_chat_id := none
    messages := []
    show_citation_id := none
    documents_cache := []
    modal_open := false }

/-- `create_new_chat` (main2.py lines 340-353): on a successful
`api_create_session` the new session is inserted into `chat_sessions`,
made current, and messages, citation selection and document cache are
reset; on failure (`new_session` falsy) only an error is shown and no
state changes.  The modal open flag is not touched. -/
def create_new_chat (st : AppState) (new_session : Option Session) : AppState :=
  match new_session with
  | some s =>
      { st with
        chat_sessions := dictInsert st.chat_sessions s.id s
        current_chat_id := some s.id
        messages := []
        show_citation_id := none
        documents_cache := [] }
  | none => st

/-- The sidebar session-switch click handler (main2.py lines 202-210):
if the clicked chat id differs from `current_chat_id`, set it current,
reset `show_citation_id`, clear `documents_cache` and replace `messages`
with `api_get_messages(chat_id)`.  Returns the next state together with
the number of `api_get_messages` calls performed (0 or 1).  The modal
open flag is not touched. -/
def select_session (api_get_messages : String → List Message)
    (st : AppState) (chat_id : String) : AppState × Nat :=
  if st.current_chat_id ≠ some chat_id then
    ({ st with
        current_chat_id := some chat_id
        show_citation_id := none
        documents_cache := []
        messages := api_get_messages chat_id }, 1)
  else
    (st, 0)

/-- The chat-input branch of `render_chat_area` (main2.py lines 315-338):
requires a truthy `current_chat_id` and a truthy (non-empty) input; sends
the message via `api_create_message`; if that succeeds, replaces
`messages` with a fresh `api_get_messages(current_chat_id)`; if it fails
(falsy result) only an error is shown and no state changes. -/
def submit_message
    (api_create_message : String → String → String → Option Message)
    (api_get_messages : String → List Message)
    (st : AppState) (user_input : String) : AppState :=
  if truthyStr st.current_chat_id then
    if user_input ≠ "" then
      match st.current_chat_id with
      | some current_chat_id =>
          match api_create_message current_chat_id "user" user_input with
          | some _ =>
              { st with messages := api_get_messages current_chat_id }
          | none => st
      | none => st
    else st
  else st

/-- The cache-or-fetch core of `display_citation_modal`
(main2.py lines 362-378): on a cache hit return the cached documents with
no fetch; on a miss call `api_get_citation` then `api_get_docs`, store the
result in `documents_cache` only if it is truthy (non-empty), and return
it.  The result is the next state, the documents obtained, and the number
of fetch-path invocations (0 or 1). -/
def get_or_fetch (api_get_citation : String → List String)
    (api_get_docs : List String → List Document)
    (st : AppState) (citation_id : String) :
    AppState × List Document × Nat :=
  match dictGet st.documents_cache citation_id with
  | some docs => (st, docs, 0)
  | none =>
      let doc_ids := api_get_citation citation_id
      let docs := api_get_docs doc_ids
      if docs ≠ [] then
        ({ st with
            documents_cache := dictInsert st.documents_cache citation_id docs },
         docs, 1)
      else
        (st, docs, 1)

/-! ## Click-bridge (the script injected by `render_text_with_citations`) -/

/-- A DOM element of the enclosing page, as far as the injected script
inspects it: whether a button query on the element finds a button. -/
structure TriggerElement where
  hasButton : Bool
  deriving Repr, DecidableEq

/-- Outcome of the citation-marker click listener. -/
inductive ClickOutcome where
  /-- The hidden trigger button was found and `button.click()` ran. -/
  | clicked (citation_id : String)
  /-- The handler returned without activating anything and without error. -/
  | noop
  /-- A TypeError escaped the handler (a property access on `null`). -/
  | thrown
  deriving Repr, DecidableEq

/-- The click listener the injected script binds to every
`span[data-citation-id]` (main2.py lines 60-68).  It evaluates
a parent-document query for a class containing the trigger-button key
into `hiddenInput`, then unconditionally evaluates
the button query on `hiddenInput`: when the first lookup found no
element, `hiddenInput` is `null` and that property access throws a
TypeError.  Only the inner `button` is guarded (`if (button)`).
`parentQuery` maps a trigger-control key to the element the parent
document lookup finds, `none` when no element matches. -/
def citation_click_handler (parentQuery : String → Option TriggerElement)
    (citation_id : String) : ClickOutcome :=
  match parentQuery ("trigger-button-" ++ citation_id) with
  | none => ClickOutcome.thrown
  | some hiddenInput =>
      if hiddenInput.hasButton then ClickOutcome.clicked citation_id
      else ClickOutcome.noop

/-! ## Height heuristic (`calculate_text_height`) -/

/-- Python `round`: round half to even (bankers rounding), modelled over
the rationals. -/
def pyRound (q : ℚ) : ℤ :=
  if q - ⌊q⌋ < 1 / 2 then ⌊q⌋
  else if q - ⌊q⌋ > 1 / 2 then ⌊q⌋ + 1
  else if ⌊q⌋ % 2 = 0 then ⌊q⌋ else ⌊q⌋ + 1

/-- `calculate_text_height` (main2.py lines 19-45), with Python float
arithmetic modelled over the rationals: estimates the number of lines from
the character count, the newline count and an assumed 65 characters per
line, scales by font size (and by the line-height multiplier when the
text contains newlines), rounds, and caps at `max_height`. -/
def calculate_text_height (text : String) (font_size : ℚ)
    (line_height_multiplier : ℚ) (max_height : ℤ) : ℤ :=
  let num_chars : ℚ := (text.length : ℚ)
  let num_breaks : ℚ := ((text.toList.filter (fun c => c = '\n')).length : ℚ)
  let max_chars_per_line : ℚ := 65
  let num_lines : ℚ :=
    num_chars / (line_height_multiplier * max_chars_per_line) +
      (if num_breaks > 0 then num_breaks * line_height_multiplier else 0)
  let total_height : ℤ :=
    pyRound (num_lines * font_size *
      (if num_breaks > 0 then line_height_multiplier else 1))
  min total_height max_height

/-! ## Transcript rendering (`render_chat_message`, `render_chat_area`) -/

/-- One Streamlit element emitted while rendering a message, as far as the
claims inspect the render: the plain markdown body, the rich-text citation
surface, a hidden per-citation trigger button with its widget key, the
caption line, and the optional link button. -/
inductive RenderedElement where
  | markdownBody (content : String)
  | citationSurface (formatted : String)
  | triggerButton (key : String) (label : String)
  | captionLine (text : String)
  | linkButton (key : String)
  deriving Repr, DecidableEq

/-- The widget key of a citation trigger button
(main2.py line 247: `button_key = f"trigger-button-{citation_id}"`).
It is built from the citation id alone; the message index is not part
of it. -/
def button_key (citation_id : String) : String :=
  "trigger-button-" ++ citation_id

/-- `render_chat_message` (main2.py lines 212-284) as the sequence of
elements it emits.  When `citations` is empty the content is rendered by
`st.markdown(content)` unmodified; otherwise `format_text_with_citations`
(a collaborator from `utils`, passed in as `format_fn`) produces the
markup shown in the isolated rich-text surface, followed by one hidden
trigger button per citation keyed by `button_key`.  The caption text
(timestamp reformatting plus optional model name, lines 256-276, which go
through Python `datetime` parsing) is abstracted as `caption_of`. -/
def render_chat_message (format_fn : String → List Citation → String)
    (caption_of : Message → String) (st : AppState)
    (message : Message) (index : Nat) : List RenderedElement :=
  let content := message.content
  let citations := message.citations
  (if citations.isEmpty then [RenderedElement.markdownBody content] else []) ++
  (if citations.isEmpty then [] else
    [RenderedElement.citationSurface (format_fn content citations)]) ++
  (if citations.isEmpty then [] else
    citations.map (fun c =>
      RenderedElement.triggerButton (button_key c.id)
        ("[" ++ c.id ++ "]"))) ++
  [RenderedElement.captionLine (caption_of message)] ++
  (match message.link with
   | some _ =>
      [RenderedElement.linkButton
        ("view_link_" ++ (st.current_chat_id.getD "None") ++ "_" ++
          toString index)]
   | none => [])

/-- The transcript loop of `render_chat_area` (main2.py lines 296-302):
when a chat is current, every message in `st.messages` is rendered in
order with its index. -/
def render_transcript (format_fn : String → List Citation → String)
    (caption_of : Message → String) (st : AppState) :
    List RenderedElement :=
  if truthyStr st.current_chat_id then
    (st.messages.enum.map
      (fun p => render_chat_message format_fn caption_of st p.2 p.1)).flatten
  else []

/-- The widget keys of the trigger buttons among a list of rendered
elements. -/
def trigger_keys (elems : List RenderedElement) : List String :=
  elems.filterMap (fun e =>
    match e with
    | RenderedElement.triggerButton k _ => some k
    | _ => none)

/-! ## Citation modal controller (`display_citation_modal`) and the
user-action step machine -/

/-- The modal auto-open check at the top of `display_citation_modal`
(main2.py lines 359-360): when `show_citation_id` is truthy and the modal
is not open, `modal.open()` is called; otherwise nothing happens. -/
def modal_auto_open (st : AppState) : AppState :=
  if truthyStr st.show_citation_id ∧ st.modal_open = false then
    { st with modal_open := true }
  else st

/-- The modal body resolve step of `display_citation_modal`
(main2.py lines 362-378): when the modal is open and a citation is
selected, resolve its documents through the cache or the fetch path
(`get_or_fetch`); otherwise nothing happens. -/
def modal_resolve (api_get_citation : String → List String)
    (api_get_docs : List String → List Document) (st : AppState) : AppState :=
  if st.modal_open = true then
    match st.show_citation_id with
    | some citation_id =>
        if citation_id ≠ "" then
          (get_or_fetch api_get_citation api_get_docs st citation_id).1
        else st
    | none => st
  else st

/-- The close-button click of `display_citation_modal`
(main2.py lines 394-397): rendered only while the modal body is shown
(modal open and a truthy selected citation); it sets
`show_citation_id = None` and calls `modal.close()` in the same handler
run. -/
def close_modal (st : AppState) : AppState :=
  if st.modal_open = true ∧ truthyStr st.show_citation_id then
    { st with show_citation_id := none, modal_open := false }
  else st

/-- The trigger-button click in `render_chat_message`
(main2.py lines 248-253): the button exists only for a citation of a
displayed message, and clicking it sets `show_citation_id` to that
id of the citation. -/
def click_trigger (st : AppState) (citation_id : String) : AppState :=
  if truthyStr st.current_chat_id ∧
      st.messages.any (fun m => m.citations.any (fun c => c.id = citation_id)) then
    { st with show_citation_id := some citation_id }
  else st

/-- One user-visible event of the UI, carrying the responses the external
collaborator returned during the action. -/
inductive Event where
  /-- A sidebar click on session `chat_id`;
  `fetched` is what `api_get_messages` returned. -/
  | selectSession (chat_id : String) (fetched : List Message)
  /-- The new-chat action; `result` is what `api_create_session` returned. -/
  | createChat (result : Option Session)
  /-- A click on the trigger button of `citation_id`. -/
  | clickTrigger (citation_id : String)
  /-- A chat-input submission; `created` is what `api_create_message`
  returned and `refetched` what the follow-up `api_get_messages`
  returned. -/
  | submitMsg (text : String) (created : Option Message)
      (refetched : List Message)
  /-- A render pass reaching the modal auto-open check. -/
  | modalOpenCheck
  /-- A render pass resolving the documents of the open modal; `doc_ids` and
  `docs` are what `api_get_citation` and `api_get_docs` returned. -/
  | modalResolve (doc_ids : List String) (docs : List Document)
  /-- A click on the close button of the modal. -/
  | closeClick
  deriving Repr, DecidableEq

/-- The step function: how one event transforms the UI state.  The
sidebar only offers buttons for sessions present in `chat_sessions`,
hence the membership guard on `selectSession`. -/
def step (st : AppState) (e : Event) : AppState :=
  match e with
  | Event.selectSession chat_id fetched =>
      if dictMem st.chat_sessions chat_id then
        (select_session (fun _ => fetched) st chat_id).1
      else st
  | Event.createChat result => create_new_chat st result
  | Event.clickTrigger citation_id => click_trigger st citation_id
  | Event.submitMsg text created refetched =>
      submit_message (fun _ _ _ => created) (fun _ => refetched) st text
  | Event.modalOpenCheck => modal_auto_open st
  | Event.modalResolve doc_ids docs =>
      modal_resolve (fun _ => doc_ids) (fun _ => docs) st
  | Event.closeClick => close_modal st

/-- Running a sequence of events from a state. -/
def run_events (st : AppState) (evs : List Event) : AppState :=
  evs.foldl step st

/-- A state is reachable when some event sequence leads to it from the
initial state of some startup session fetch. -/
def ReachableState (st : AppState) : Prop :=
  ∃ (fetched_sessions : List Session) (evs : List Event),
    run_events (init_app fetched_sessions) evs = st

/-! ## Concrete fixtures used as inputs of witnesses and counterexamples -/

/-- A concrete backend session record. -/
def session_s1 : Session := { id := "s1", title := "Chat one", created_at := "t0" }

/-- A concrete state with session `s1` known and active and everything
else fresh. -/
def st_active_s1 : AppState :=
  { chat_sessions := [("s1", session_s1)]
    current_chat_id := some "s1"
    messages := []
    show_citation_id := none
    documents_cache := []
    modal_open := false }

/-- A concrete citation-free user message. -/
def msg_hello : Message :=
  { role := "user", content := "hello", citations := [], timestamp := "t1",
    link := none }

/-- A concrete assistant message carrying citation `c1`. -/
def msg_cited : Message :=
  { role := "assistant", content := "see [c1]",
    citations := [{ id := "c1", text := "quoted excerpt" }],
    timestamp := "t2", link := none }

/-- A second, distinct concrete message that also carries citation `c1`. -/
def msg_cited_again : Message :=
  { role := "assistant", content := "again [c1]",
    citations := [{ id := "c1", text := "another excerpt" }],
    timestamp := "t3", link := none }

/-- A concrete state displaying two distinct messages that both carry a
citation with id `c1`. -/
def st_two_cited : AppState :=
  { chat_sessions := [("s1", session_s1)]
    current_chat_id := some "s1"
    messages := [msg_cited, msg_cited_again]
    show_citation_id := none
    documents_cache := []
    modal_open := false }

/-- A concrete state knowing session `s1` with no session selected yet. -/
def st_fresh_s1 : AppState :=
  { chat_sessions := [("s1", session_s1)]
    current_chat_id := none
    messages := []
    show_citation_id := none
    documents_cache := []
    modal_open := false }

/-- A concrete state with session `s1` active, the cited message displayed,
citation `c1` selected and the modal open. -/
def st_modal_open : AppState :=
  { chat_sessions := [("s1", session_s1)]
    current_chat_id := some "s1"
    messages := [msg_cited]
    show_citation_id := some "c1"
    documents_cache := []
    modal_open := true }

/-- A concrete event trace: create a chat, submit a message whose refetch
returns a cited message, click its citation trigger, let the render pass
open the modal, then create another chat while the modal is open. -/
def modal_left_open_trace : List Event :=
  [Event.createChat (some session_s1),
   Event.submitMsg "hello" (some msg_hello) [msg_cited],
   Event.clickTrigger "c1",
   Event.modalOpenCheck,
   Event.createChat (some { id := "s2", title := "New Chat", created_at := "t4" })]

/-! ## Formalizations of claims the code falsifies, stated as written -/

/-- C1 as stated: every action whose collaborator call returns the failure
sentinel — session creation (`api_create_session` returning the null
sentinel), the session-switch message fetch (`api_get_messages` returning
the empty sentinel), and message submission (`api_create_message`
returning the null sentinel) — leaves the prior state exactly untouched. -/
def failed_actions_preserve_state : Prop :=
  (∀ st : AppState, create_new_chat st none = st) ∧
  (∀ (st : AppState) (chat_id : String),
    (select_session (fun _ => []) st chat_id).1 = st) ∧
  (∀ (st : AppState) (api_get_messages : String → List Message)
    (text : String),
    submit_message (fun _ _ _ => none) api_get_messages st text = st)

/-- C3 as stated: a session switch to a different id always nulls the
selected citation, resets the modal open flag to false, empties the
document cache and replaces the messages with the ones fetched for the
newly selected session. -/
def switch_resets_modal_flag : Prop :=
  ∀ (st : AppState) (chat_id : String)
    (api_get_messages : String → List Message),
    st.current_chat_id ≠ some chat_id →
    (select_session api_get_messages st chat_id).1 =
      { st with current_chat_id := some chat_id, show_citation_id := none,
                modal_open := false, documents_cache := [],
                messages := api_get_messages chat_id }

/-- C6 as stated (invariant part): in every reachable UI state an open
modal has a non-null selected citation id. -/
def open_modal_has_selection : Prop :=
  ∀ st : AppState, ReachableState st →
    st.modal_open = true → st.show_citation_id ≠ none

/-! ## Helper lemmas -/

/-- Looking up the key just inserted finds the inserted value. -/
theorem dictGet_dictInsert_self {α : Type} (d : List (String × α)) (k : String)
    (v : α) : dictGet (dictInsert d k v) k = some v := by
  induction d with
  | nil => simp [dictInsert, dictGet]
  | cons p rest ih =>
      by_cases hp : p.1 = k
      · simp [dictInsert, hp, dictGet]
      · simpa [dictInsert, hp, dictGet, List.find?_cons] using ih

/-- Mapping a function of the entry over an enumerated list forgets the
indices. -/
theorem enumFrom_map_val {α β : Type} (g : α → β) (n : Nat) (l : List α) :
    (List.enumFrom n l).map (fun p => g p.2) = l.map g := by
  induction l generalizing n with
  | nil => rfl
  | cons a t ih => simp [List.enumFrom_cons, ih]

/-! ## Claim theorems -/

/-- C4: when the document cache has no entry for a citation id, a failed or
empty resolve-and-fetch (`api_get_docs` over `api_get_citation` returning
the empty sentinel) stores nothing in the cache — the state is unchanged —
so displaying the same citation again invokes the fetch path again
(fetch count 1); a non-empty result is stored under the citation id, and a
later lookup returns it from the cache with no further fetch
(fetch count 0). -/
theorem get_or_fetch_cache_policy (api_get_citation : String → List String)
    (api_get_docs : List String → List Document)
    (st : AppState) (citation_id : String)
    (hmiss : dictGet st.documents_cache citation_id = none) :
    (api_get_docs (api_get_citation citation_id) = [] →
      (get_or_fetch api_get_citation api_get_docs st citation_id).1 = st ∧
      (get_or_fetch api_get_citation api_get_docs
        (get_or_fetch api_get_citation api_get_docs st citation_id).1
        citation_id).2.2 = 1) ∧
    (api_get_docs (api_get_citation citation_id) ≠ [] →
      dictGet (get_or_fetch api_get_citation api_get_docs st
          citation_id).1.documents_cache citation_id =
        some (api_get_docs (api_get_citation citation_id)) ∧
      get_or_fetch api_get_citation api_get_docs
          (get_or_fetch api_get_citation api_get_docs st citation_id).1
          citation_id =
        ((get_or_fetch api_get_citation api_get_docs st citation_id).1,
          api_get_docs (api_get_citation citation_id), 0)) := by
  by_cases hd : api_get_docs (api_get_citation citation_id) = []
  · refine ⟨fun _ => ?_, fun hc => absurd hd hc⟩
    constructor
    · simp [get_or_fetch, hmiss, hd]
    · simp [get_or_fetch, hmiss, hd]
  · refine ⟨fun hc => absurd hc hd, fun _ => ?_⟩
    have h1 : get_or_fetch api_get_citation api_get_docs st citation_id =
        ({ st with
            documents_cache := dictInsert st.documents_cache citation_id
              (api_get_docs (api_get_citation citation_id)) },
         api_get_docs (api_get_citation citation_id), 1) := by
      simp [get_or_fetch, hmiss, hd]
    rw [h1]
    have hcached : dictGet (dictInsert st.documents_cache citation_id
          (api_get_docs (api_get_citation citation_id))) citation_id =
        some (api_get_docs (api_get_citation citation_id)) :=
      dictGet_dictInsert_self _ _ _
    exact ⟨hcached, by simp [get_or_fetch, hcached]⟩

/-- C4 witness: a concrete miss followed by a failed fetch retries, a
concrete miss followed by a successful fetch caches. -/
theorem get_or_fetch_cache_policy_witness :
    dictGet (init_app []).documents_cache "c1" = none ∧
    ((fun _ => ([] : List Document)) ([] : List String) = [] →
      (get_or_fetch (fun _ => []) (fun _ => []) (init_app []) "c1").1 =
        init_app [] ∧
      (get_or_fetch (fun _ => []) (fun _ => [])
        (get_or_fetch (fun _ => []) (fun _ => []) (init_app []) "c1").1
        "c1").2.2 = 1) := by
  refine ⟨by decide, ?_⟩
  exact (get_or_fetch_cache_policy (fun _ => []) (fun _ => [])
    (init_app []) "c1" (by decide)).1

/-- C5: with an active (truthy) session and non-empty input text, once the
message is accepted by the collaborator (`api_create_message` succeeds),
the message sequence is replaced wholesale by a fresh
`api_get_messages(current_chat_id)` — the full transcript re-fetched for
the active session — and nothing else in the state changes; in particular
the submitted message is never appended locally. -/
theorem submit_message_refetches
    (api_create_message : String → String → String → Option Message)
    (api_get_messages : String → List Message)
    (st : AppState) (chat_id : String) (user_input : String) (m : Message)
    (hcur : st.current_chat_id = some chat_id) (hne : chat_id ≠ "")
    (htext : user_input ≠ "")
    (hok : api_create_message chat_id "user" user_input = some m) :
    submit_message api_create_message api_get_messages st user_input =
      { st with messages := api_get_messages chat_id } := by
  simp [submit_message, truthyStr, hcur, hne, htext, hok]

/-- C5 witness: a concrete successful submission replaces the messages with
the refetched transcript. -/
theorem submit_message_refetches_witness :
    st_active_s1.current_chat_id = some "s1" ∧
    ("s1" : String) ≠ "" ∧ ("hello" : String) ≠ "" ∧
    submit_message (fun _ _ _ => some msg_hello) (fun _ => [msg_hello])
        st_active_s1 "hello" =
      { st_active_s1 with messages := [msg_hello] } :=
  ⟨rfl, by decide, by decide,
   submit_message_refetches (fun _ _ _ => some msg_hello) (fun _ => [msg_hello])
     st_active_s1 "s1" "hello" msg_hello rfl (by decide) (by decide) rfl⟩

/-- C7: reselecting the currently active session is idempotent: starting
from a state where session `s` is not yet active, the first sidebar select
of `s` performs exactly one `api_get_messages` fetch, and a second select
of `s` (now the currently active id) with no intervening action is a
no-op — it returns the state unchanged and performs zero fetches, so the
two calls together perform exactly one fetch. -/
theorem select_session_idempotent (api_get_messages : String → List Message)
    (st : AppState) (s : String) (h : st.current_chat_id ≠ some s) :
    (select_session api_get_messages st s).2 = 1 ∧
    select_session api_get_messages
        (select_session api_get_messages st s).1 s =
      ((select_session api_get_messages st s).1, 0) ∧
    (select_session api_get_messages st s).2 +
      (select_session api_get_messages
        (select_session api_get_messages st s).1 s).2 = 1 := by
  refine ⟨by simp [select_session, h], ?_, ?_⟩ <;>
    simp [select_session, h]

/-- C7 witness: a concrete double select of the same session from a fresh
state fetches once then no-ops. -/
theorem select_session_idempotent_witness :
    (init_app []).current_chat_id ≠ some "s1" ∧
    (select_session (fun _ => []) (init_app []) "s1").2 = 1 ∧
    select_session (fun _ => [])
        (select_session (fun _ => []) (init_app []) "s1").1 "s1" =
      ((select_session (fun _ => []) (init_app []) "s1").1, 0) ∧
    (select_session (fun _ => []) (init_app []) "s1").2 +
      (select_session (fun _ => [])
        (select_session (fun _ => []) (init_app []) "s1").1 "s1").2 = 1 :=
  ⟨by decide,
   select_session_idempotent (fun _ => []) (init_app []) "s1" (by decide)⟩

/-- C8: a message whose citations list is empty renders its body as the
plain markdown of the unmodified content, and the render contains no
citation rich-text surface and no per-citation trigger control. -/
theorem render_empty_citations_plain
    (format_fn : String → List Citation → String)
    (caption_of : Message → String) (st : AppState) (m : Message) (i : Nat)
    (h : m.citations = []) :
    (render_chat_message format_fn caption_of st m i).head? =
      some (RenderedElement.markdownBody m.content) ∧
    (∀ e ∈ render_chat_message format_fn caption_of st m i,
      (∀ k l, e ≠ RenderedElement.triggerButton k l) ∧
      (∀ t, e ≠ RenderedElement.citationSurface t)) := by
  constructor
  · simp [render_chat_message, h]
  · intro e he
    rcases hml : m.link with _ | url
    · simp [render_chat_message, h, hml] at he
      rcases he with he | he <;> subst he <;> exact ⟨by simp, by simp⟩
    · simp [render_chat_message, h, hml] at he
      rcases he with he | he | he <;> subst he <;> exact ⟨by simp, by simp⟩

/-- C8 witness: a concrete citation-free message renders as its plain
content with no citation elements. -/
theorem render_empty_citations_plain_witness :
    ({ role := "user", content := "hi", citations := [], timestamp := "t",
        link := none } : Message).citations = [] ∧
    ((render_chat_message (fun s _ => s) (fun _ => "cap") (init_app [])
        { role := "user", content := "hi", citations := [], timestamp := "t",
          link := none } 0).head? =
      some (RenderedElement.markdownBody "hi") ∧
    (∀ e ∈ render_chat_message (fun s _ => s) (fun _ => "cap") (init_app [])
        { role := "user", content := "hi", citations := [], timestamp := "t",
          link := none } 0,
      (∀ k l, e ≠ RenderedElement.triggerButton k l) ∧
      (∀ t, e ≠ RenderedElement.citationSurface t))) :=
  ⟨rfl, render_empty_citations_plain (fun s _ => s) (fun _ => "cap")
    (init_app []) _ 0 rfl⟩

/-- `pyRound` of a non-negative rational is non-negative. -/
theorem pyRound_nonneg (q : ℚ) (h : 0 ≤ q) : 0 ≤ pyRound q := by
  have hf : (0 : ℤ) ≤ ⌊q⌋ := Int.floor_nonneg.mpr h
  unfold pyRound
  split_ifs <;> omega

/-- C9: with the call-site parameters of `render_text_with_citations`
(font size 14, line-height multiplier 1.6), `calculate_text_height` is a
total function of the text and, for every non-negative `max_height`,
returns an integer clamped to the interval from 0 to `max_height`. -/
theorem calculate_text_height_clamped (text : String) (max_height : ℤ)
    (h : 0 ≤ max_height) :
    0 ≤ calculate_text_height text 14 1.6 max_height ∧
    calculate_text_height text 14 1.6 max_height ≤ max_height := by
  unfold calculate_text_height
  constructor
  · refine le_min (pyRound_nonneg _ ?_) h
    have h1 : (0 : ℚ) ≤ (text.length : ℚ) := by positivity
    have h2 : (0 : ℚ) ≤
        ((text.toList.filter (fun c => c = '\n')).length : ℚ) := by positivity
    split_ifs with hb <;> positivity
  · exact min_le_right _ _

/-- C9 witness: a concrete multi-line text at the concrete maximum height
350 yields a height between 0 and 350. -/
theorem calculate_text_height_clamped_witness :
    (0 : ℤ) ≤ 350 ∧
    (0 ≤ calculate_text_height "hello\nworld" 14 1.6 350 ∧
      calculate_text_height "hello\nworld" 14 1.6 350 ≤ 350) :=
  ⟨by decide, calculate_text_height_clamped "hello\nworld" 350 (by decide)⟩

/-- `trigger_keys` distributes over `flatten`. -/
theorem trigger_keys_flatten (L : List (List RenderedElement)) :
    trigger_keys L.flatten = (L.map trigger_keys).flatten := by
  simp only [trigger_keys, List.filterMap_flatten]
  rfl

/-- The trigger-button keys a rendered message emits are exactly
`button_key` of its citation ids, independently of the message index. -/
theorem trigger_keys_render_chat_message
    (format_fn : String → List Citation → String)
    (caption_of : Message → String) (st : AppState) (m : Message) (i : Nat) :
    trigger_keys (render_chat_message format_fn caption_of st m i) =
      m.citations.map (fun c => button_key c.id) := by
  unfold render_chat_message trigger_keys
  rcases hml : m.link with _ | url <;>
    rcases hcit : m.citations with _ | ⟨c, cs⟩ <;>
      simp [List.filterMap_append, List.filterMap_map, Function.comp_def,
        List.filterMap_eq_map_iff_forall_eq_some, hcit]

/-- The trigger-button keys of the whole transcript are the per-message
citation keys flattened in message order. -/
theorem trigger_keys_render_transcript
    (format_fn : String → List Citation → String)
    (caption_of : Message → String) (st : AppState)
    (h : truthyStr st.current_chat_id = true) :
    trigger_keys (render_transcript format_fn caption_of st) =
      (st.messages.map
        (fun m => m.citations.map (fun c => button_key c.id))).flatten := by
  unfold render_transcript
  rw [h]
  simp only [if_true]
  rw [trigger_keys_flatten, List.map_map]
  have hmap : st.messages.enum.map
      (trigger_keys ∘ fun p => render_chat_message format_fn caption_of st p.2 p.1) =
      st.messages.enum.map
        (fun p => p.2.citations.map (fun c => button_key c.id)) :=
    List.map_congr_left
      (fun p _ => trigger_keys_render_chat_message format_fn caption_of st p.2 p.1)
  rw [hmap]
  congr 1
  simpa [List.enum] using
    enumFrom_map_val (fun m : Message => m.citations.map (fun c => button_key c.id))
      0 st.messages

/-- C10: the trigger-control key is derived from the citation id alone
(`trigger-button-` followed by the id), not from the enclosing message, so
any two messages at distinct transcript positions whose citation lists
both contain a citation with the same id each emit a control with the
identical key, and the key list of the full transcript is not duplicate-free. -/
theorem duplicate_trigger_keys_across_messages
    (format_fn : String → List Citation → String)
    (caption_of : Message → String) (st : AppState) (i j : Nat) (cid : String)
    (hcur : truthyStr st.current_chat_id = true)
    (hi : i < st.messages.length) (hj : j < st.messages.length) (hij : i ≠ j)
    (hci : cid ∈ (st.messages[i]).citations.map Citation.id)
    (hcj : cid ∈ (st.messages[j]).citations.map Citation.id) :
    button_key cid ∈
      trigger_keys (render_chat_message format_fn caption_of st (st.messages[i]) i) ∧
    button_key cid ∈
      trigger_keys (render_chat_message format_fn caption_of st (st.messages[j]) j) ∧
    ¬ (trigger_keys (render_transcript format_fn caption_of st)).Nodup := by
  have hmem : ∀ (k : Nat) (hk : k < st.messages.length),
      cid ∈ (st.messages[k]).citations.map Citation.id →
      button_key cid ∈ (st.messages[k]).citations.map
        (fun c => button_key c.id) := by
    intro k hk hc
    rcases List.mem_map.mp hc with ⟨c, hcmem, hceq⟩
    exact List.mem_map.mpr ⟨c, hcmem, by rw [hceq]⟩
  refine ⟨?_, ?_, ?_⟩
  · rw [trigger_keys_render_chat_message]
    exact hmem i hi hci
  · rw [trigger_keys_render_chat_message]
    exact hmem j hj hcj
  · intro hnd
    rw [trigger_keys_render_transcript format_fn caption_of st hcur] at hnd
    have hpair := (List.nodup_flatten.mp hnd).2
    rw [List.pairwise_iff_getElem] at hpair
    have hlen : (st.messages.map
        (fun m => m.citations.map (fun c => button_key c.id))).length =
        st.messages.length := by simp
    rcases Nat.lt_or_ge i j with hlt | hge
    · have hd := hpair i j (by omega) (by omega) hlt
      simp only [List.getElem_map] at hd
      exact hd (hmem i hi hci) (hmem j hj hcj)
    · have hlt2 : j < i := by omega
      have hd := hpair j i (by omega) (by omega) hlt2
      simp only [List.getElem_map] at hd
      exact hd (hmem j hj hcj) (hmem i hi hci)

/-- C10 witness: a concrete transcript of two distinct messages both
citing `c1` yields a duplicated trigger key. -/
theorem duplicate_trigger_keys_witness :
    truthyStr st_two_cited.current_chat_id = true ∧ (0 : Nat) ≠ 1 ∧
    ¬ (trigger_keys (render_transcript (fun s _ => s) (fun _ => "")
        st_two_cited)).Nodup :=
  ⟨by decide, by decide,
   (duplicate_trigger_keys_across_messages (fun s _ => s) (fun _ => "")
      st_two_cited 0 1 "c1" (by decide) (by decide) (by decide) (by decide)
      (by decide) (by decide)).2.2⟩

/-- C1 counterexample: the claim as stated is false — switching to session
`s1` from a fresh state while `api_get_messages` returns the failure
sentinel does not leave the state untouched (the active session id has
already changed, the selection and cache are cleared and the sentinel is
installed as the message list). -/
theorem failed_actions_preserve_state_false :
    ¬ failed_actions_preserve_state := by
  intro h
  exact absurd (h.2.1 st_fresh_s1 "s1") (by decide)

/-- C1 amended: a failed session creation and a failed message submission
leave the whole state untouched, but a session switch whose message fetch
returns the failure sentinel still switches the active session, clears the
citation selection and the document cache, and installs the sentinel (the
empty list) as the message sequence. -/
theorem failed_create_and_submit_preserve_state :
    (∀ st : AppState, create_new_chat st none = st) ∧
    (∀ (st : AppState) (api_get_messages : String → List Message)
      (text : String),
      submit_message (fun _ _ _ => none) api_get_messages st text = st) ∧
    (∀ (st : AppState) (chat_id : String),
      st.current_chat_id ≠ some chat_id →
      (select_session (fun _ => []) st chat_id).1 =
        { st with current_chat_id := some chat_id, show_citation_id := none,
                  documents_cache := [], messages := [] }) := by
  refine ⟨fun st => rfl, fun st api_get_messages text => ?_,
    fun st chat_id h => by simp [select_session, h]⟩
  unfold submit_message
  split_ifs <;> try rfl
  cases st.current_chat_id <;> rfl

/-- C1 amended witness: the concrete fresh state switched to `s1` under a
failing fetch ends in exactly the described state. -/
theorem failed_create_and_submit_preserve_state_witness :
    st_fresh_s1.current_chat_id ≠ some "s1" ∧
    (select_session (fun _ => []) st_fresh_s1 "s1").1 =
      { st_fresh_s1 with current_chat_id := some "s1",
                         show_citation_id := none,
                         documents_cache := [], messages := [] } :=
  ⟨by decide,
   failed_create_and_submit_preserve_state.2.2 st_fresh_s1 "s1" (by decide)⟩

/-- C2 (code bug): when no enclosing trigger control matching
`trigger-button-c1` exists, the injected click listener does not complete
as a silent no-op — the unguarded `querySelector` property access on the
null lookup result throws a TypeError. -/
theorem missing_trigger_click_throws :
    citation_click_handler (fun _ => none) "c1" = ClickOutcome.thrown ∧
    citation_click_handler (fun _ => none) "c1" ≠ ClickOutcome.noop := by
  decide

/-- C3 counterexample: the claim as stated is false — switching sessions
from a concrete state whose modal is open does not reset the modal open
flag to false. -/
theorem switch_resets_modal_flag_false : ¬ switch_resets_modal_flag := by
  intro h
  exact absurd (h st_modal_open "s2" (fun _ => []) (by decide)) (by decide)

/-- C3 amended: a session switch to a different id sets the new active
session, nulls the selected citation id, empties the document cache and
replaces the message sequence with the fetched messages — while the modal
open flag (and the session list) are left unchanged. -/
theorem switch_resets_selection_cache_messages (st : AppState)
    (chat_id : String) (api_get_messages : String → List Message)
    (h : st.current_chat_id ≠ some chat_id) :
    (select_session api_get_messages st chat_id).1 =
      { st with current_chat_id := some chat_id, show_citation_id := none,
                documents_cache := [],
                messages := api_get_messages chat_id } := by
  simp [select_session, h]

/-- C3 amended witness: the concrete open-modal state switched to `s2`
keeps its modal flag and takes the fetched messages. -/
theorem switch_resets_selection_cache_messages_witness :
    st_modal_open.current_chat_id ≠ some "s2" ∧
    (select_session (fun _ => [msg_hello]) st_modal_open "s2").1 =
      { st_modal_open with current_chat_id := some "s2",
                           show_citation_id := none,
                           documents_cache := [],
                           messages := [msg_hello] } :=
  ⟨by decide,
   switch_resets_selection_cache_messages st_modal_open "s2"
     (fun _ => [msg_hello]) (by decide)⟩

/-- C6 counterexample: the invariant as stated is false — the concrete
reachable trace that opens the modal for `c1` and then creates a new chat
ends in a state whose modal is open while the selected citation id is
null, because `create_new_chat` (like the sidebar switch) clears the
selection without closing the modal. -/
theorem open_modal_has_selection_false : ¬ open_modal_has_selection := by
  intro h
  have hr : ReachableState (run_events (init_app []) modal_left_open_trace) :=
    ⟨[], modal_left_open_trace, rfl⟩
  exact h _ hr (by decide) (by decide)

/-- C6 amended: the explicit close action clears the selected citation id
and sets the modal open flag to false in the same state transition, and
the modal auto-open step only opens the modal while a citation is
selected; however a reachable state may have the modal open with a null
selection, because session switch and session creation clear the
selection without closing the modal. -/
theorem close_clears_selection_atomically (st : AppState)
    (hopen : st.modal_open = true)
    (hsel : truthyStr st.show_citation_id = true) :
    ((close_modal st).show_citation_id = none ∧
      (close_modal st).modal_open = false) ∧
    (∀ st2 : AppState, (modal_auto_open st2).modal_open = true →
      st2.modal_open = true ∨ truthyStr st2.show_citation_id = true) := by
  constructor
  · simp [close_modal, hopen, hsel]
  · intro st2 h2
    unfold modal_auto_open at h2
    split_ifs at h2 with hcond
    · exact Or.inr hcond.1
    · exact Or.inl h2

/-- C6 amended witness: closing the concrete open-modal state clears the
selection and the open flag together. -/
theorem close_clears_selection_atomically_witness :
    st_modal_open.modal_open = true ∧
    truthyStr st_modal_open.show_citation_id = true ∧
    ((close_modal st_modal_open).show_citation_id = none ∧
      (close_modal st_modal_open).modal_open = false) :=
  ⟨rfl, by decide,
   (close_clears_selection_atomically st_modal_open rfl (by decide)).1⟩

end ChatbotGermano
